import Mathlib

/-!
Verification of the rover core of `esp32_master.ino` from the
Obstacle_Avoiding_RC_Rover repository.

The embedding models one cycle of each of the two FreeRTOS tasks
(`decisionTask`, `sensorTask`), the ESP-NOW receive callback
(`receiveCommand`), the ultrasonic read helper (`readUltrasonicCM`) and the
mutex-guarded shared state (the globals `measuredDistanceCm` and
`remoteCommand`).  Mutex acquisition with its 10 ms timeout is modelled by a
boolean parameter `lockOk`: `true` means `xSemaphoreTake` returned `pdTRUE`
within the timeout, `false` means the acquisition timed out.  Distances and
the command byte are natural numbers (the C types are `int`, `unsigned int`
and `uint8_t`; no value in this program is ever negative and none overflows).
Serial output is modelled as lists of the emitted strings.
-/

namespace Rover

/-- Distance thresholds in centimeters (`#define CRITICAL_THRESHOLD 8`). -/
def CRITICAL_THRESHOLD : Nat := 8

/-- Distance threshold in centimeters (`#define OBSTACLE_THRESHOLD 20`). -/
def OBSTACLE_THRESHOLD : Nat := 20

/-- Maximum distance sentinel (`#define MAX_DISTANCE 100`). -/
def MAX_DISTANCE : Nat := 100

/-- Backoff hold duration in milliseconds (`#define TURN_TIME 100`). -/
def TURN_TIME : Nat := 100

/-- `CarCommand` values, kept as their `uint8_t` encodings. -/
def CMD_STOP : Nat := 0

/-- `CarCommand` value `CMD_FORWARD`. -/
def CMD_FORWARD : Nat := 1

/-- `CarCommand` value `CMD_BACKWARD`. -/
def CMD_BACKWARD : Nat := 2

/-- `CarCommand` value `CMD_LEFT`. -/
def CMD_LEFT : Nat := 3

/-- `CarCommand` value `CMD_RIGHT`. -/
def CMD_RIGHT : Nat := 4

/-- The shared mutable state of the rover core: the globals
`measuredDistanceCm` (guarded by `distanceMutex`) and `remoteCommand`
(guarded by `commandMutex`).  The command field is the raw stored byte:
`receiveCommand` casts any `uint8_t` into `CarCommand` without rejecting
values outside 0..4, so the field can hold any byte. -/
structure SharedState where
  measuredDistanceCm : Nat
  remoteCommand : Nat
deriving Repr, DecidableEq

/-- Read of the distance field as performed at the top of `decisionTask`:
on lock acquisition the stored value is copied, on timeout the local
variable is set to `MAX_DISTANCE` instead. -/
def readDistance (lockOk : Bool) (s : SharedState) : Nat :=
  if lockOk then s.measuredDistanceCm else MAX_DISTANCE

/-- Read of the command field as performed in `decisionTask`: the local
`cmd` is initialized to `CMD_STOP` and overwritten with `remoteCommand`
only when the lock is acquired. -/
def readCommand (lockOk : Bool) (s : SharedState) : Nat :=
  if lockOk then s.remoteCommand else CMD_STOP

/-- Write of the distance field as performed in `sensorTask`: the store
happens only inside the `xSemaphoreTake` success branch; on timeout the
write is skipped and the state is unchanged. -/
def publishDistance (d : Nat) (lockOk : Bool) (s : SharedState) : SharedState :=
  if lockOk then ⟨d, s.remoteCommand⟩ else s

/-- Write of the command field as performed in `receiveCommand`: the store
happens only inside the `xSemaphoreTake` success branch; on timeout the
write is skipped and the state is unchanged. -/
def publishCommand (c : Nat) (lockOk : Bool) (s : SharedState) : SharedState :=
  if lockOk then ⟨s.measuredDistanceCm, c⟩ else s

/-- `readUltrasonicCM`: the raw `sonar.ping_cm()` reading (0 when no echo
was detected) with 0 mapped to `MAX_DISTANCE`; any non-zero raw reading is
returned unchanged.  The debug `Serial.println(distance)` is not modelled
because nothing downstream observes it. -/
def readUltrasonicCM (raw : Nat) : Nat :=
  if raw = 0 then MAX_DISTANCE else raw

/-- The debug line printed by the `switch (cmd)` at the end of
`receiveCommand`; its `default` case prints `Command: UNKNOWN`. -/
def cmdDebugLine (cmd : Nat) : String :=
  if cmd = CMD_STOP then "Command: STOP"
  else if cmd = CMD_FORWARD then "Command: FORWARD"
  else if cmd = CMD_BACKWARD then "Command: BACKWARD"
  else if cmd = CMD_LEFT then "Command: LEFT"
  else if cmd = CMD_RIGHT then "Command: RIGHT"
  else "Command: UNKNOWN"

/-- The ESP-NOW receive callback `receiveCommand`.  `incomingData` is the
raw packet as a list of bytes; `sizeof(ControlPacket)` is 1 (one packed
`uint8_t`).  On a length mismatch it logs an error and returns without
touching the state; otherwise it extracts the single command byte, stores
it under `commandMutex` (modelled by `lockOk`) and logs the debug line.
Returns the new state and the debug serial output of the call. -/
def receiveCommand (incomingData : List Nat) (lockOk : Bool)
    (s : SharedState) : SharedState × List String :=
  match incomingData with
  | [c] => (publishCommand c lockOk s, [cmdDebugLine c])
  | _ =>
      (s, ["Error: Invalid packet size. Expected 1 bytes, got " ++
            toString incomingData.length])

/-- The token written to `SerialMega` by the `switch (cmd)` in the clear
branch of `decisionTask`.  The switch has cases only for the five
enumerators and no `default`, so any other stored byte emits nothing. -/
def commandToken (cmd : Nat) : Option String :=
  if cmd = CMD_STOP then some "STOP"
  else if cmd = CMD_FORWARD then some "FORWARD"
  else if cmd = CMD_BACKWARD then some "BACKWARD"
  else if cmd = CMD_LEFT then some "LEFT"
  else if cmd = CMD_RIGHT then some "RIGHT"
  else none

/-- Observable output of one `decisionTask` loop iteration:
the tokens written to `SerialMega` (the MotorLink), the debug lines
written to `Serial`, and the `vTaskDelay` duration in milliseconds. -/
structure CycleOutput where
  motorTokens : List String
  debugLog : List String
  delayMs : Nat
deriving Repr, DecidableEq

/-- One iteration of the `while (1)` loop of `decisionTask`:
read the distance (falling back to `MAX_DISTANCE` on lock timeout), read
the command (falling back to `CMD_STOP` on lock timeout), then branch:
distance at most `CRITICAL_THRESHOLD` emits `BACKWARD` and holds
`TURN_TIME`; else distance at most `OBSTACLE_THRESHOLD` emits `BACKWARD`
and holds `TURN_TIME`; else the switch on the command runs and the task
sleeps 50 ms. -/
def decisionCycle (distLockOk cmdLockOk : Bool) (s : SharedState) :
    CycleOutput :=
  let currentDist := readDistance distLockOk s
  let cmd := readCommand cmdLockOk s
  if currentDist ≤ CRITICAL_THRESHOLD then
    ⟨["BACKWARD"], ["Proximity Alert! Backtracking..."], TURN_TIME⟩
  else if currentDist ≤ OBSTACLE_THRESHOLD then
    ⟨["BACKWARD"], ["Obstacle Alert! Backtracking..."], TURN_TIME⟩
  else
    ⟨(commandToken cmd).toList, [], 50⟩

/-- An alarm event: the level written to `ALARM_PIN` (`true` = HIGH) and
the `vTaskDelay` that follows it, in milliseconds. -/
def AlarmEvent := Bool × Nat
deriving instance Repr, DecidableEq for AlarmEvent

/-- One iteration of the `while (1)` loop of `sensorTask`: read the
ultrasonic sensor via `readUltrasonicCM`, store the value under
`distanceMutex` (skipped on lock timeout), then, if the fresh local value
`d` is strictly below `CRITICAL_THRESHOLD`, drive the alarm pin HIGH for
200 ms and LOW for 200 ms.  Returns the new shared state and the alarm
events of the cycle. -/
def sensorCycle (raw : Nat) (lockOk : Bool) (s : SharedState) :
    SharedState × List AlarmEvent :=
  let d := readUltrasonicCM raw
  let s' := publishDistance d lockOk s
  let alarm : List AlarmEvent :=
    if d < CRITICAL_THRESHOLD then [(true, 200), (false, 200)] else []
  (s', alarm)

/-- C1: For every distance sample d with d ≤ CRITICAL_THRESHOLD (8 cm),
including d exactly equal to the threshold, the next token emitted to the
MotorLink by a decision cycle is BACKWARD, for every published remote
command value and whether or not the command lock is acquired. -/
theorem decision_critical_emits_backward (d cmd : Nat) (b : Bool)
    (hd : d ≤ CRITICAL_THRESHOLD) :
    (decisionCycle true b ⟨d, cmd⟩).motorTokens = ["BACKWARD"] := by
  simp [decisionCycle, readDistance, hd]

/-- Witness for C1 at the boundary sample d = 8 with command RIGHT and a
timed-out command lock. -/
theorem decision_critical_emits_backward_witness :
    8 ≤ CRITICAL_THRESHOLD ∧
    (decisionCycle true false ⟨8, CMD_RIGHT⟩).motorTokens = ["BACKWARD"] :=
  ⟨by decide, decision_critical_emits_backward 8 CMD_RIGHT false (by decide)⟩

/-- C2 counterexample: with distance 50 (clear zone) and published command
byte 5 (outside the enumeration 0..4, which receiveCommand publishes
unrejected), the decision cycle emits no motor token at all: the switch in
the clear branch has no default case, so the claim that exactly one
directive equal to the published command is emitted fails. -/
theorem decision_clear_unknown_command_counterexample :
    OBSTACLE_THRESHOLD < 50 ∧
    (decisionCycle true true ⟨50, 5⟩).motorTokens = [] :=
  ⟨by decide, rfl⟩

/-- C2 amended: for every distance sample d > OBSTACLE_THRESHOLD, a
decision cycle emits exactly the token of the published command when that
command is one of the five enumerators 0..4, and emits no motion directive
at all when the published byte lies outside the enumeration. -/
theorem decision_clear_forwards_command (d cmd : Nat)
    (hd : OBSTACLE_THRESHOLD < d) :
    (cmd = CMD_STOP →
      (decisionCycle true true ⟨d, cmd⟩).motorTokens = ["STOP"]) ∧
    (cmd = CMD_FORWARD →
      (decisionCycle true true ⟨d, cmd⟩).motorTokens = ["FORWARD"]) ∧
    (cmd = CMD_BACKWARD →
      (decisionCycle true true ⟨d, cmd⟩).motorTokens = ["BACKWARD"]) ∧
    (cmd = CMD_LEFT →
      (decisionCycle true true ⟨d, cmd⟩).motorTokens = ["LEFT"]) ∧
    (cmd = CMD_RIGHT →
      (decisionCycle true true ⟨d, cmd⟩).motorTokens = ["RIGHT"]) ∧
    (4 < cmd →
      (decisionCycle true true ⟨d, cmd⟩).motorTokens = []) := by
  have h8 : ¬ d ≤ CRITICAL_THRESHOLD := by
    unfold CRITICAL_THRESHOLD; unfold OBSTACLE_THRESHOLD at hd; omega
  have h20 : ¬ d ≤ OBSTACLE_THRESHOLD := by
    unfold OBSTACLE_THRESHOLD at hd ⊢; omega
  refine ⟨?_, ?_, ?_, ?_, ?_, ?_⟩ <;> intro hc
  · subst hc; simp [decisionCycle, readDistance, readCommand, h8, h20,
      commandToken, CMD_STOP]
  · subst hc; simp [decisionCycle, readDistance, readCommand, h8, h20,
      commandToken, CMD_STOP, CMD_FORWARD]
  · subst hc; simp [decisionCycle, readDistance, readCommand, h8, h20,
      commandToken, CMD_STOP, CMD_FORWARD, CMD_BACKWARD]
  · subst hc; simp [decisionCycle, readDistance, readCommand, h8, h20,
      commandToken, CMD_STOP, CMD_FORWARD, CMD_BACKWARD, CMD_LEFT]
  · subst hc; simp [decisionCycle, readDistance, readCommand, h8, h20,
      commandToken, CMD_STOP, CMD_FORWARD, CMD_BACKWARD, CMD_LEFT, CMD_RIGHT]
  · have h0 : cmd ≠ CMD_STOP := by unfold CMD_STOP; omega
    have h1 : cmd ≠ CMD_FORWARD := by unfold CMD_FORWARD; omega
    have h2 : cmd ≠ CMD_BACKWARD := by unfold CMD_BACKWARD; omega
    have h3 : cmd ≠ CMD_LEFT := by unfold CMD_LEFT; omega
    have h4 : cmd ≠ CMD_RIGHT := by unfold CMD_RIGHT; omega
    simp [decisionCycle, readDistance, readCommand, h8, h20,
      commandToken, h0, h1, h2, h3, h4]

/-- Witness for the amended C2 at distance 50 with command LEFT. -/
theorem decision_clear_forwards_command_witness :
    OBSTACLE_THRESHOLD < 50 ∧
    (decisionCycle true true ⟨50, CMD_LEFT⟩).motorTokens = ["LEFT"] :=
  ⟨by decide, (decision_clear_forwards_command 50 CMD_LEFT (by decide)).2.2.2.1 rfl⟩

/-- C3 counterexample: at distance 15 (obstacle zone) with operator
command BACKWARD, the decision cycle emits exactly the token of the
operator command, so the claim that the raw operator command is never
emitted verbatim in that zone fails. -/
theorem decision_obstacle_verbatim_counterexample :
    CRITICAL_THRESHOLD < 15 ∧ 15 ≤ OBSTACLE_THRESHOLD ∧
    (decisionCycle true true ⟨15, CMD_BACKWARD⟩).motorTokens =
      (commandToken CMD_BACKWARD).toList :=
  ⟨by decide, by decide, rfl⟩

/-- C3 amended: for every sample d with CRITICAL_THRESHOLD < d ≤
OBSTACLE_THRESHOLD, the emitted directive is always BACKWARD, computed
independently of the published command; hence for every command other than
BACKWARD the emission differs from the operator command, and at command
BACKWARD it coincides with it only textually. -/
theorem decision_obstacle_overrides (d cmd : Nat) (b : Bool)
    (h1 : CRITICAL_THRESHOLD < d) (h2 : d ≤ OBSTACLE_THRESHOLD) :
    (decisionCycle true b ⟨d, cmd⟩).motorTokens = ["BACKWARD"] ∧
    (cmd ≠ CMD_BACKWARD →
      (decisionCycle true b ⟨d, cmd⟩).motorTokens ≠
        (commandToken cmd).toList) := by
  have h8 : ¬ d ≤ CRITICAL_THRESHOLD := by omega
  have hout : (decisionCycle true b ⟨d, cmd⟩).motorTokens = ["BACKWARD"] := by
    simp [decisionCycle, readDistance, h8, h2]
  refine ⟨hout, fun hc => ?_⟩
  rw [hout]
  unfold CMD_BACKWARD at hc
  rcases Nat.lt_or_ge cmd 5 with h5 | h5
  · interval_cases cmd <;> simp_all [commandToken, CMD_STOP, CMD_FORWARD,
      CMD_BACKWARD, CMD_LEFT, CMD_RIGHT]
  · have h0 : cmd ≠ 0 := by omega
    have hh1 : cmd ≠ 1 := by omega
    have hh2 : cmd ≠ 2 := by omega
    have hh3 : cmd ≠ 3 := by omega
    have hh4 : cmd ≠ 4 := by omega
    simp [commandToken, CMD_STOP, CMD_FORWARD, CMD_BACKWARD, CMD_LEFT,
      CMD_RIGHT, h0, hh1, hh2, hh3, hh4]

/-- Witness for the amended C3 at distance 15 with command FORWARD. -/
theorem decision_obstacle_overrides_witness :
    CRITICAL_THRESHOLD < 15 ∧ 15 ≤ OBSTACLE_THRESHOLD ∧
    (decisionCycle true true ⟨15, CMD_FORWARD⟩).motorTokens = ["BACKWARD"] :=
  ⟨by decide, by decide,
    (decision_obstacle_overrides 15 CMD_FORWARD true (by decide) (by decide)).1⟩

/-- C4: on a lock-acquisition timeout, a distance read returns the
MAX_DISTANCE sentinel, a command read returns CMD_STOP, and writes to
either field leave the state unchanged; on lock acquisition, reads return
the stored field and writes replace exactly that field. -/
theorem sharedState_timeout_semantics (s : SharedState) (d c : Nat) :
    readDistance false s = MAX_DISTANCE ∧
    readCommand false s = CMD_STOP ∧
    publishDistance d false s = s ∧
    publishCommand c false s = s ∧
    readDistance true s = s.measuredDistanceCm ∧
    readCommand true s = s.remoteCommand ∧
    publishDistance d true s = ⟨d, s.remoteCommand⟩ ∧
    publishCommand c true s = ⟨s.measuredDistanceCm, c⟩ := by
  simp [readDistance, readCommand, publishDistance, publishCommand]

/-- C5: a packet whose byte length differs from sizeof(ControlPacket) = 1
leaves the shared state untouched (no field is written, whatever the lock
outcome) and produces exactly the invalid-size error log line. -/
theorem receiveCommand_rejects_bad_length (incomingData : List Nat)
    (lockOk : Bool) (s : SharedState)
    (h : incomingData.length ≠ 1) :
    (receiveCommand incomingData lockOk s).1 = s ∧
    (receiveCommand incomingData lockOk s).2 =
      ["Error: Invalid packet size. Expected 1 bytes, got " ++
        toString incomingData.length] := by
  match incomingData, h with
  | [], _ => exact ⟨rfl, rfl⟩
  | [c], h => exact absurd rfl h
  | a :: b :: rest, _ => exact ⟨rfl, rfl⟩

/-- Witness for C5: a two-byte packet is rejected and the previously
published command persists. -/
theorem receiveCommand_rejects_bad_length_witness :
    ([1, 2] : List Nat).length ≠ 1 ∧
    (receiveCommand [1, 2] true ⟨50, CMD_FORWARD⟩).1 = ⟨50, CMD_FORWARD⟩ :=
  ⟨by decide,
    (receiveCommand_rejects_bad_length [1, 2] true ⟨50, CMD_FORWARD⟩ (by decide)).1⟩

/-- C6: a no-echo raw reading of 0 is returned by readUltrasonicCM as the
MAX_DISTANCE sentinel; the return value is never 0; every non-zero raw
reading passes through unchanged; and what the sensing cycle publishes (on
lock acquisition) is exactly that return value. -/
theorem readUltrasonic_no_echo_mapping (raw : Nat) (s : SharedState) :
    readUltrasonicCM 0 = MAX_DISTANCE ∧
    readUltrasonicCM raw ≠ 0 ∧
    (raw ≠ 0 → readUltrasonicCM raw = raw) ∧
    (sensorCycle raw true s).1.measuredDistanceCm = readUltrasonicCM raw := by
  refine ⟨rfl, ?_, ?_, ?_⟩
  · unfold readUltrasonicCM MAX_DISTANCE
    split <;> omega
  · intro hr
    simp [readUltrasonicCM, hr]
  · simp [sensorCycle, publishDistance]

/-- Witness for C6 at the non-zero raw reading 7. -/
theorem readUltrasonic_no_echo_mapping_witness :
    (7 : Nat) ≠ 0 ∧ readUltrasonicCM 7 = 7 :=
  ⟨by decide, (readUltrasonic_no_echo_mapping 7 ⟨50, 0⟩).2.2.1 (by decide)⟩

/-- C7: publishing the same command twice in a row (with the same lock
outcome each time) leaves SharedState in the same state as publishing it
once, and a subsequent successful read returns the same result. -/
theorem publishCommand_idempotent (c : Nat) (b : Bool) (s : SharedState) :
    publishCommand c b (publishCommand c b s) = publishCommand c b s ∧
    readCommand true (publishCommand c b (publishCommand c b s)) =
      readCommand true (publishCommand c b s) := by
  cases b <;> simp [publishCommand, readCommand]

/-- C8: in a sensing cycle with measured sample d (the value returned by
readUltrasonicCM), the alarm pin is driven through exactly one cycle of
HIGH for 200 ms then LOW for 200 ms when d is strictly below
CRITICAL_THRESHOLD, and is not driven at all when d is at or above the
threshold — the alarm comparison is strict, unlike the inclusive decision
branches. -/
theorem sensor_alarm_strict_threshold (raw : Nat) (lockOk : Bool)
    (s : SharedState) :
    (readUltrasonicCM raw < CRITICAL_THRESHOLD →
      (sensorCycle raw lockOk s).2 = [(true, 200), (false, 200)]) ∧
    (CRITICAL_THRESHOLD ≤ readUltrasonicCM raw →
      (sensorCycle raw lockOk s).2 = []) := by
  constructor
  · intro hd
    simp [sensorCycle, hd]
  · intro hd
    have hd' : ¬ readUltrasonicCM raw < CRITICAL_THRESHOLD := by omega
    simp [sensorCycle, hd']

/-- Witness for C8: the raw sample 5 fires one alarm cycle and the
boundary sample 8 does not. -/
theorem sensor_alarm_strict_threshold_witness :
    readUltrasonicCM 5 < CRITICAL_THRESHOLD ∧
    (sensorCycle 5 true ⟨50, 0⟩).2 = [(true, 200), (false, 200)] ∧
    CRITICAL_THRESHOLD ≤ readUltrasonicCM 8 ∧
    (sensorCycle 8 true ⟨50, 0⟩).2 = [] :=
  ⟨by decide, (sensor_alarm_strict_threshold 5 true ⟨50, 0⟩).1 (by decide),
    by decide, (sensor_alarm_strict_threshold 8 true ⟨50, 0⟩).2 (by decide)⟩

/-- C9: a decision cycle observing a critical-zone sample is identical at
the MotorLink to one observing an obstacle-zone sample — both emit the
single token BACKWARD and hold for TURN_TIME — and the two differ only in
the debug log line. -/
theorem critical_obstacle_motorlink_equal (d₁ d₂ cmd : Nat) (b : Bool)
    (h1 : d₁ ≤ CRITICAL_THRESHOLD) (h2 : CRITICAL_THRESHOLD < d₂)
    (h3 : d₂ ≤ OBSTACLE_THRESHOLD) :
    (decisionCycle true b ⟨d₁, cmd⟩).motorTokens =
      (decisionCycle true b ⟨d₂, cmd⟩).motorTokens ∧
    (decisionCycle true b ⟨d₁, cmd⟩).motorTokens = ["BACKWARD"] ∧
    (decisionCycle true b ⟨d₁, cmd⟩).delayMs =
      (decisionCycle true b ⟨d₂, cmd⟩).delayMs ∧
    (decisionCycle true b ⟨d₁, cmd⟩).delayMs = TURN_TIME ∧
    (decisionCycle true b ⟨d₁, cmd⟩).debugLog ≠
      (decisionCycle true b ⟨d₂, cmd⟩).debugLog := by
  have h8 : ¬ d₂ ≤ CRITICAL_THRESHOLD := by omega
  simp [decisionCycle, readDistance, h1, h8, h3]

/-- Witness for C9 with samples 5 (critical) and 15 (obstacle). -/
theorem critical_obstacle_motorlink_equal_witness :
    5 ≤ CRITICAL_THRESHOLD ∧ CRITICAL_THRESHOLD < 15 ∧
    15 ≤ OBSTACLE_THRESHOLD ∧
    (decisionCycle true true ⟨5, CMD_FORWARD⟩).motorTokens = ["BACKWARD"] :=
  ⟨by decide, by decide, by decide,
    (critical_obstacle_motorlink_equal 5 15 CMD_FORWARD true
      (by decide) (by decide) (by decide)).2.1⟩

/-- C10: the alarm events of a sensing cycle are the same whether or not
the distance publish succeeds — the on/off decision is computed from the
freshly measured local sample, not from SharedState — and in particular a
sample below CRITICAL_THRESHOLD fires the alarm even when the lock timeout
drops the publish and leaves the state unchanged. -/
theorem sensor_alarm_uses_local_sample (raw : Nat) (s : SharedState) :
    (sensorCycle raw false s).2 = (sensorCycle raw true s).2 ∧
    (sensorCycle raw false s).1 = s ∧
    (readUltrasonicCM raw < CRITICAL_THRESHOLD →
      (sensorCycle raw false s).2 = [(true, 200), (false, 200)]) := by
  refine ⟨rfl, ?_, ?_⟩
  · simp [sensorCycle, publishDistance]
  · intro hd
    simp [sensorCycle, hd]

/-- Witness for C10 at raw sample 5 with a timed-out distance lock. -/
theorem sensor_alarm_uses_local_sample_witness :
    readUltrasonicCM 5 < CRITICAL_THRESHOLD ∧
    (sensorCycle 5 false ⟨50, 0⟩).2 = [(true, 200), (false, 200)] ∧
    (sensorCycle 5 false ⟨50, 0⟩).1 = (⟨50, 0⟩ : SharedState) :=
  ⟨by decide, (sensor_alarm_uses_local_sample 5 ⟨50, 0⟩).2.2 (by decide),
    (sensor_alarm_uses_local_sample 5 ⟨50, 0⟩).2.1⟩

end Rover
